import Mathlib

/-
Verification of the formula-evaluation engine and Monte Carlo simulation
orchestrator of the sl-api service (src/app.py), via a shallow embedding.

Modelling conventions:
- Python floats are modelled as exact rationals (ℚ).
- Python exceptions are modelled by the `PyErr` type together with
  `Except PyErr` results; a `try/except` block that wraps and re-raises is
  modelled by mapping the error value.
- Python `str.replace` (all, non-overlapping occurrences, left to right) is
  modelled by `String.replace`, `x in s` by `strContains`, dictionaries by
  insertion-ordered association lists with overwrite-in-place semantics
  (`dictSet` / first-match lookup), matching CPython dict behaviour for the
  inputs considered (keys compared by string equality).
- `str(x)` on a numeric value is modelled by `pyStr`, which renders the exact
  decimal expansion (the concrete values used in proofs all have short exact
  decimal expansions, where CPython repr agrees).
- The external collaborators (the sampling primitive and the game solver) are
  parameters: `Sampler` is a deterministic oracle indexed by the call site
  (trial, scenario index, player tag, variable index), `Solver` consumes the
  assembled outcome list and returns an equilibrium description or raises.
- `eval` on the sanitized arithmetic string is modelled by `evalArith`, a
  tokenizer and recursive-descent parser covering decimal literals, the four
  binary operators, unary sign and parentheses with Python operator
  precedence; division by zero raises, malformed syntax raises.
-/

set_option maxRecDepth 4000

/-- Kinds of Python exception values observable in the translated code. -/
inductive PyErr where
  | exception (m : String)
  | zeroDivision
  | valueError (m : String)
  | keyError (k : String)
  | indexError
  | syntaxError
deriving DecidableEq, Repr

/-- The result of Python `str(e)` for each modelled exception value. -/
def PyErr.msg : PyErr → String
  | .exception m => m
  | .zeroDivision => "float division by zero"
  | .valueError m => m
  | .keyError k => "\x27" ++ k ++ "\x27"
  | .indexError => "list index out of range"
  | .syntaxError => "invalid syntax"

/-- The result of Python `type(e).__name__` for each modelled exception. -/
def PyErr.typeName : PyErr → String
  | .exception _ => "Exception"
  | .zeroDivision => "ZeroDivisionError"
  | .valueError _ => "ValueError"
  | .keyError _ => "KeyError"
  | .indexError => "IndexError"
  | .syntaxError => "SyntaxError"

deriving instance DecidableEq for Except

/-- Python float division: raises ZeroDivisionError on a zero denominator. -/
def pydiv (a b : ℚ) : Except PyErr ℚ :=
  if b = 0 then .error .zeroDivision else .ok (a / b)

/-- Python substring test `pat in s` (for nonempty pat, as used here). -/
def strContains (s pat : String) : Bool :=
  decide (2 ≤ (s.splitOn pat).length)

/-- Decimal digits of num/den (den positive), stopping at a terminating
expansion or after `fuel` digits. -/
def fracDigitStr (num den : ℕ) (fuel : ℕ) : String :=
  match fuel with
  | 0 => ""
  | f + 1 =>
    if num = 0 then ""
    else
      let n10 := num * 10
      (Nat.digitChar (n10 / den)).toString ++ fracDigitStr (n10 % den) den f

/-- Python `str` on a float value, for values with short exact decimal
expansions (sign, integer part, decimal point, fractional digits; a trailing
zero digit when the value is integral, as CPython prints floats). -/
def pyStr (q : ℚ) : String :=
  let sign := if q < 0 then "-" else ""
  let a := |q|
  let ip : ℕ := a.floor.toNat
  let fr : ℚ := a - (ip : ℚ)
  let ds := fracDigitStr fr.num.toNat fr.den 25
  sign ++ toString ip ++ "." ++ (if ds = "" then "0" else ds)

/-- Model of src/app.py `clamp_to_bounds`: clamp a value to min/max bounds. -/
def clamp_to_bounds (value min_val max_val : ℚ) : ℚ :=
  max min_val (min max_val value)

/-- One variable definition from the request payload, as consumed by
`evaluate_formula` and the sampling loop (fields `variableNumber`, `min`,
`max`, `stdev`, optional `weight`, `desiredEffect`). -/
structure VarDef where
  variableNumber : String
  min : ℚ
  max : ℚ
  stdev : ℚ
  weight : Option ℚ
  desiredEffect : String
deriving DecidableEq, Repr

/-- Model of src/app.py lines 77-93: the standardization computation for one value
(branch on desiredEffect, division by the bounds range, clamp to [0, 1]).
Division when `max_val - min_val = 0` raises ZeroDivisionError. -/
def standardizedValue (value min_val max_val : ℚ) (desired_effect : String) :
    Except PyErr ℚ := do
  let sv ←
    if desired_effect.toLower == "positive" then
      pydiv (value - min_val) (max_val - min_val)
    else if desired_effect.toLower == "negative" then
      pydiv (max_val - value) (max_val - min_val)
    else
      pydiv (value - min_val) (max_val - min_val)
  pure (max 0 (min 1 sv))

/-- Model of src/app.py lines 52-57: weight substitution pass. For each declared
variable, the tokens `<id>_weight` and `<lowercased id>_weight` are replaced
by `str` of the weight (default 0.5 when unset). -/
def weightSubst (variables_data : List VarDef) (formula : String) : String :=
  variables_data.foldl
    (fun ef var =>
      let w := var.weight.getD (1 / 2)
      (ef.replace (var.variableNumber ++ "_weight") (pyStr w)).replace
        (var.variableNumber.toLower ++ "_weight") (pyStr w))
    formula

/-- Model of src/app.py line 65: base variable name obtained by deleting the player
tag suffix from the sampled-value key. -/
def baseVar (key player_suffix : String) : String :=
  key.replace ("_" ++ player_suffix) ""

/-- Model of src/app.py line 68: the original formula mentions a standardization token
for this base variable (three case variants are checked). -/
def hasStndToken (formula base : String) : Bool :=
  strContains formula (base ++ "_stnd") || strContains formula (base ++ "_Stnd") ||
    strContains formula (base.toLower ++ "_stnd")

/-- Model of src/app.py lines 96-98 and 102-104: replace the three case variants of
the standardization token with the rendered value. -/
def substStnd (ef base : String) (v : ℚ) : String :=
  ((ef.replace (base ++ "_stnd") (pyStr v)).replace (base ++ "_Stnd") (pyStr v)).replace
    (base.toLower ++ "_stnd") (pyStr v)

/-- Model of src/app.py lines 62-108: the body of the loop over sampled values, for a
single (key, value) item. Keys not carrying the player tag are skipped; a
standardization token routes through the variable definition when one is
found and otherwise falls back to the raw value; without a standardization
token the `_Val` token and then the bare base name are replaced. -/
def substOneSampled (formula : String) (variables_data : List VarDef)
    (player_suffix : String) (ef : String) (kv : String × ℚ) :
    Except PyErr String :=
  let key := kv.1
  let value := kv.2
  if key.endsWith ("_" ++ player_suffix) then
    let base := baseVar key player_suffix
    if hasStndToken formula base then
      match variables_data.find? (fun v => v.variableNumber == base) with
      | some var_def => do
        let sv ← standardizedValue value var_def.min var_def.max var_def.desiredEffect
        pure (substStnd ef base sv)
      | none => pure (substStnd ef base value)
    else
      pure ((ef.replace (base ++ "_Val") (pyStr value)).replace base (pyStr value))
  else
    pure ef

/-- Model of src/app.py lines 48-108: the full substitution pipeline. Weight
substitution first, then the loop over sampled values in insertion order. -/
def substPipeline (formula : String) (sampled_values : List (String × ℚ))
    (player_suffix : String) (variables_data : List VarDef) :
    Except PyErr String :=
  sampled_values.foldlM (substOneSampled formula variables_data player_suffix)
    (weightSubst variables_data formula)

/-- Model of src/app.py line 112: the character allow-list for the safety check. -/
def allowedChars : List Char := "0123456789+-*/(). ".data

/-- Membership in the allow-list. -/
def isAllowedChar (c : Char) : Bool := allowedChars.contains c

/-- Arithmetic tokens of the sanitized expression language. -/
inductive Tok where
  | num (q : ℚ)
  | plus
  | minus
  | star
  | slash
  | lparen
  | rparen
deriving DecidableEq, Repr

/-- Leading run of decimal digits of a character list, with the rest. -/
def takeDigits : List Char → (List Char × List Char)
  | [] => ([], [])
  | c :: rest =>
    if c.isDigit then
      let (d, r) := takeDigits rest
      (c :: d, r)
    else ([], c :: rest)

/-- Numeric value of a digit run. -/
def digitsToNat (ds : List Char) : ℕ :=
  ds.foldl (fun a c => a * 10 + (c.toNat - 48)) 0

/-- Value of a decimal literal from its integer and fractional digit runs. -/
def mkNum (ds fs : List Char) : ℚ :=
  (digitsToNat ds : ℚ) + (digitsToNat fs : ℚ) / ((10 : ℚ) ^ fs.length)

/-- Tokenizer for the sanitized arithmetic expression (digits, decimal
point, the four operators, parentheses, spaces); any other character or a
lone decimal point is a syntax error. -/
def tokenize (fuel : ℕ) (cs : List Char) : Except PyErr (List Tok) :=
  match fuel with
  | 0 => .error .syntaxError
  | fuel + 1 =>
    match cs with
    | [] => .ok []
    | c :: rest =>
      if c = ' ' then tokenize fuel rest
      else if c = '+' then (tokenize fuel rest).map (Tok.plus :: ·)
      else if c = '-' then (tokenize fuel rest).map (Tok.minus :: ·)
      else if c = '*' then (tokenize fuel rest).map (Tok.star :: ·)
      else if c = '/' then (tokenize fuel rest).map (Tok.slash :: ·)
      else if c = '(' then (tokenize fuel rest).map (Tok.lparen :: ·)
      else if c = ')' then (tokenize fuel rest).map (Tok.rparen :: ·)
      else if c.isDigit || c = '.' then
        let (ds, r1) := takeDigits (c :: rest)
        match r1 with
        | '.' :: r2 =>
          let (fs, r3) := takeDigits r2
          if ds.isEmpty && fs.isEmpty then .error .syntaxError
          else (tokenize fuel r3).map (Tok.num (mkNum ds fs) :: ·)
        | _ =>
          if ds.isEmpty then .error .syntaxError
          else (tokenize fuel r1).map (Tok.num (mkNum ds []) :: ·)
      else .error .syntaxError

mutual

/-- Additive level of the arithmetic grammar. -/
def parseE (fuel : ℕ) (ts : List Tok) : Except PyErr (ℚ × List Tok) :=
  match fuel with
  | 0 => .error .syntaxError
  | fuel + 1 => do
    let (v, ts1) ← parseT fuel ts
    parseEtail fuel v ts1

/-- Remaining additions and subtractions at the additive level. -/
def parseEtail (fuel : ℕ) (v : ℚ) (ts : List Tok) : Except PyErr (ℚ × List Tok) :=
  match fuel with
  | 0 => .error .syntaxError
  | fuel + 1 =>
    match ts with
    | Tok.plus :: ts1 => do
      let (w, ts2) ← parseT fuel ts1
      parseEtail fuel (v + w) ts2
    | Tok.minus :: ts1 => do
      let (w, ts2) ← parseT fuel ts1
      parseEtail fuel (v - w) ts2
    | _ => .ok (v, ts)

/-- Multiplicative level of the arithmetic grammar. -/
def parseT (fuel : ℕ) (ts : List Tok) : Except PyErr (ℚ × List Tok) :=
  match fuel with
  | 0 => .error .syntaxError
  | fuel + 1 => do
    let (v, ts1) ← parseU fuel ts
    parseTtail fuel v ts1

/-- Remaining multiplications and divisions; division raises on zero. -/
def parseTtail (fuel : ℕ) (v : ℚ) (ts : List Tok) : Except PyErr (ℚ × List Tok) :=
  match fuel with
  | 0 => .error .syntaxError
  | fuel + 1 =>
    match ts with
    | Tok.star :: ts1 => do
      let (w, ts2) ← parseU fuel ts1
      parseTtail fuel (v * w) ts2
    | Tok.slash :: ts1 => do
      let (w, ts2) ← parseU fuel ts1
      let d ← pydiv v w
      parseTtail fuel d ts2
    | _ => .ok (v, ts)

/-- Unary sign level. -/
def parseU (fuel : ℕ) (ts : List Tok) : Except PyErr (ℚ × List Tok) :=
  match fuel with
  | 0 => .error .syntaxError
  | fuel + 1 =>
    match ts with
    | Tok.plus :: ts1 => parseU fuel ts1
    | Tok.minus :: ts1 => (parseU fuel ts1).map (fun p => (-p.1, p.2))
    | _ => parseA fuel ts

/-- Atoms: numeric literals and parenthesized expressions. -/
def parseA (fuel : ℕ) (ts : List Tok) : Except PyErr (ℚ × List Tok) :=
  match fuel with
  | 0 => .error .syntaxError
  | fuel + 1 =>
    match ts with
    | Tok.num q :: ts1 => .ok (q, ts1)
    | Tok.lparen :: ts1 => do
      let (v, ts2) ← parseE fuel ts1
      match ts2 with
      | Tok.rparen :: ts3 => .ok (v, ts3)
      | _ => .error .syntaxError
    | _ => .error .syntaxError

end

/-- Model of Python `eval` restricted to the sanitized arithmetic strings
that pass the allow-list: tokenize, parse with standard precedence and
unary sign, demand that all input is consumed. -/
def evalArith (s : String) : Except PyErr ℚ := do
  let ts ← tokenize (s.length + 1) s.data
  let (v, rest) ← parseE (5 * ts.length + 10) ts
  if rest.isEmpty then pure v else .error .syntaxError

/-- Model of src/app.py lines 28-120 `evaluate_formula`: substitution pipeline, then
the character allow-list gate, then arithmetic evaluation; every error
raised inside the try block is caught and re-raised as a generic Exception
wrapping the formula text and the inner message. -/
def evaluate_formula (formula : String) (sampled_values : List (String × ℚ))
    (player_suffix : String) (variables_data : List VarDef) : Except PyErr ℚ :=
  match (do
    let ef ← substPipeline formula sampled_values player_suffix variables_data
    if ef.all isAllowedChar then evalArith ef
    else Except.error (.valueError ("Formula contains invalid characters: " ++ formula))) with
  | .ok result => .ok result
  | .error e =>
    .error (.exception ("Error evaluating formula \x27" ++ formula ++ "\x27: " ++ e.msg))


/-- One player object of the request payload as consumed by
`process_game_info` (fields `variables`, `scenarios`, `scenarioValues`,
`formula`). -/
structure PlayerSpec where
  «variables» : List VarDef
  scenarios : List String
  scenarioValues : List (List ℚ)
  formula : String
deriving DecidableEq, Repr

/-- The request payload fields used by `process_game_info`. -/
structure GameData where
  playerA : PlayerSpec
  playerB : PlayerSpec
deriving DecidableEq, Repr

/-- The external sampling primitive `sample_from_distribution(mean, stdev, 1)[0]`,
modelled as a deterministic oracle indexed by the call site: trial index,
scenario index, player tag, variable index, then mean and stdev. -/
abbrev Sampler := ℕ → ℕ → String → ℕ → ℚ → ℚ → ℚ

/-- The external game/solver collaborator: `create_game(outcomes)`,
`BackwardInductionSolver`, `solve()`, `str(record_equilibrium())`, modelled
as one function from the ordered outcome list to an equilibrium description
string (or a raised exception). -/
abbrev Solver := List (ℚ × ℚ) → Except PyErr String

/-- Python dict assignment `d[k] = v`: overwrite in place when the key is
present, else append. -/
def dictSet {α : Type} (d : List (String × α)) (k : String) (v : α) :
    List (String × α) :=
  match d with
  | [] => [(k, v)]
  | (k2, v2) :: rest =>
    if k2 == k then (k2, v) :: rest else (k2, v2) :: dictSet rest k v

/-- Python dict lookup `d[k]`: KeyError when absent. -/
def dictGet {α : Type} (d : List (String × α)) (k : String) : Except PyErr α :=
  match d.find? (fun kv => kv.1 == k) with
  | some kv => .ok kv.2
  | none => .error (.keyError k)

/-- Python list indexing `l[i]`: IndexError when out of range. -/
def listAt {α : Type} (l : List α) (i : ℕ) : Except PyErr α :=
  match l.get? i with
  | some x => .ok x
  | none => .error .indexError

/-- Model of src/app.py lines 171-198: sample every variable of one player for one
scenario: the mean is `scenarioValues[i][j]`, the draw is clamped to the
declared bounds, and the result is stored under the tag-qualified key. -/
def samplePlayerVars (sample : Sampler) (run scIdx : ℕ) (suffix : String)
    (vars : List VarDef) (scenarioValues : List (List ℚ)) :
    Except PyErr (List (String × ℚ)) :=
  vars.enum.foldlM
    (fun sampled jv => do
      let j := jv.1
      let var := jv.2
      let row ← listAt scenarioValues scIdx
      let mean ← listAt row j
      let sampled_val := sample run scIdx suffix j mean var.stdev
      let clamped_val := clamp_to_bounds sampled_val var.min var.max
      pure (dictSet sampled (var.variableNumber ++ "_" ++ suffix) clamped_val))
    []

/-- One row of the per-player variables table: the `simulation_run` entry
followed by the scenario-qualified sampled values, in insertion order. -/
structure RunRow where
  simulation_run : ℕ
  values : List (String × ℚ)
deriving DecidableEq, Repr

/-- One row of the payoffs-and-results table (src/app.py lines 233-244). -/
structure PayoffRow where
  simulation_run : ℕ
  nt_nt_PlayerA : ℚ
  nt_nt_PlayerB : ℚ
  t_nt_PlayerA : ℚ
  t_nt_PlayerB : ℚ
  nt_t_PlayerA : ℚ
  nt_t_PlayerB : ℚ
  t_t_PlayerA : ℚ
  t_t_PlayerB : ℚ
  equilibrium_result : String
deriving DecidableEq, Repr

/-- One failed-simulation record (src/app.py lines 249-253). -/
structure FailureRow where
  simulation_run : ℕ
  error : String
  error_type : String
deriving DecidableEq, Repr

/-- The failure record stored for trial `run`: 1-based run number, the
exception message, and the exception type name. -/
def mkFailure (run : ℕ) (e : PyErr) : FailureRow :=
  { simulation_run := run + 1, error := e.msg, error_type := e.typeName }

/-- Model of src/app.py lines 163-213: the scenario sweep of one trial. For each
scenario of player A (in order), sample both players, evaluate both formulas,
record the payoff pair under the scenario label, and accumulate the
scenario-qualified sampled values into the two run rows. Any raised exception
aborts the whole sweep with nothing retained. -/
def runScenarios (sample : Sampler) (gd : GameData) (run : ℕ) :
    Except PyErr (RunRow × RunRow × List (String × (ℚ × ℚ))) := do
  let st ← gd.playerA.scenarios.enum.foldlM
    (fun (acc : List (String × ℚ) × List (String × ℚ) × List (String × (ℚ × ℚ)))
        (isc : ℕ × String) => do
      let i := isc.1
      let sc := isc.2
      let playerA_sampled ←
        samplePlayerVars sample run i "A" gd.playerA.variables gd.playerA.scenarioValues
      let playerB_sampled ←
        samplePlayerVars sample run i "B" gd.playerB.variables gd.playerB.scenarioValues
      let playerA_payoff ←
        evaluate_formula gd.playerA.formula playerA_sampled "A" gd.playerA.variables
      let playerB_payoff ←
        evaluate_formula gd.playerB.formula playerB_sampled "B" gd.playerB.variables
      let sps := dictSet acc.2.2 sc (playerA_payoff, playerB_payoff)
      let accA := playerA_sampled.foldl
        (fun a (kv : String × ℚ) => dictSet a (kv.1 ++ "_" ++ sc) kv.2) acc.1
      let accB := playerB_sampled.foldl
        (fun a (kv : String × ℚ) => dictSet a (kv.1 ++ "_" ++ sc) kv.2) acc.2.1
      pure (accA, accB, sps))
    ([], [], [])
  pure (⟨run + 1, st.1⟩, ⟨run + 1, st.2.1⟩, st.2.2)

/-- Model of src/app.py lines 220-225: assemble the ordered outcome list
`[NT_NT, T_NT, NT_T, T_T]` from the scenario payoffs dict (KeyError when a
label is missing). -/
def assembleOutcomes (scenario_payoffs : List (String × (ℚ × ℚ))) :
    Except PyErr (List (ℚ × ℚ)) := do
  let ntnt ← dictGet scenario_payoffs "NT_NT"
  let tnt ← dictGet scenario_payoffs "T_NT"
  let ntt ← dictGet scenario_payoffs "NT_T"
  let tt ← dictGet scenario_payoffs "T_T"
  pure [ntnt, tnt, ntt, tt]

/-- Model of src/app.py lines 219-244: build the outcome list, submit it to the
external solver, and on success build the payoff row (re-reading the four
pairs from the scenario payoffs dict, as the Python dict literal does). -/
def solvePhase (solve : Solver) (scenario_payoffs : List (String × (ℚ × ℚ)))
    (run : ℕ) : Except PyErr PayoffRow := do
  let outcomes ← assembleOutcomes scenario_payoffs
  let sim_result ← solve outcomes
  let ntnt ← dictGet scenario_payoffs "NT_NT"
  let tnt ← dictGet scenario_payoffs "T_NT"
  let ntt ← dictGet scenario_payoffs "NT_T"
  let tt ← dictGet scenario_payoffs "T_T"
  pure { simulation_run := run + 1
         nt_nt_PlayerA := ntnt.1, nt_nt_PlayerB := ntnt.2
         t_nt_PlayerA := tnt.1, t_nt_PlayerB := tnt.2
         nt_t_PlayerA := ntt.1, nt_t_PlayerB := ntt.2
         t_t_PlayerA := tt.1, t_t_PlayerB := tt.2
         equilibrium_result := sim_result }

/-- The four aggregate tables built by the simulation loop. -/
structure SimState where
  playerA_variables : List RunRow
  playerB_variables : List RunRow
  payoffs_and_results : List PayoffRow
  failed_simulations : List FailureRow
deriving DecidableEq, Repr

/-- The empty aggregate state before the first trial. -/
def initSimState : SimState := ⟨[], [], [], []⟩

/-- Model of src/app.py lines 161-255: one iteration of the trial loop. A failure in
the scenario sweep records only a failure entry; after a successful sweep
the two variable rows are appended first (lines 216-217), so a later failure
in the solver phase still leaves them appended while recording a failure
entry; a fully successful trial appends the payoff row as well. -/
def simStep (sample : Sampler) (solve : Solver) (gd : GameData)
    (st : SimState) (run : ℕ) : SimState :=
  match runScenarios sample gd run with
  | .error e =>
    { st with failed_simulations := st.failed_simulations ++ [mkFailure run e] }
  | .ok (run_data_A, run_data_B, scenario_payoffs) =>
    match solvePhase solve scenario_payoffs run with
    | .error e =>
      { st with
        playerA_variables := st.playerA_variables ++ [run_data_A]
        playerB_variables := st.playerB_variables ++ [run_data_B]
        failed_simulations := st.failed_simulations ++ [mkFailure run e] }
    | .ok payoff_data =>
      { st with
        playerA_variables := st.playerA_variables ++ [run_data_A]
        playerB_variables := st.playerB_variables ++ [run_data_B]
        payoffs_and_results := st.payoffs_and_results ++ [payoff_data] }

/-- The end-to-end result of one trial: the payoff row on success, the first
raised exception otherwise. `simStep` routes on exactly this. -/
def trialResult (sample : Sampler) (solve : Solver) (gd : GameData)
    (run : ℕ) : Except PyErr PayoffRow :=
  match runScenarios sample gd run with
  | .error e => .error e
  | .ok (_, _, scenario_payoffs) => solvePhase solve scenario_payoffs run

/-- Model of src/app.py lines 161-255: the trial loop over `range n`. -/
def runSimulation (sample : Sampler) (solve : Solver) (gd : GameData)
    (n : ℕ) : SimState :=
  (List.range n).foldl (simStep sample solve gd) initSimState

/-- The response record assembled by `process_game_info` (lines 261-275).
The wall-clock timestamp is outside the model, and the formatted percentage
string is modelled by the underlying rational percentage. -/
structure ProcessedResults where
  status : String
  input_data : GameData
  simulation_runs : ℕ
  successful_runs : ℕ
  failed_runs : ℕ
  success_rate : ℚ
  failed_simulations : Option (List FailureRow)
  playerA_variables : List RunRow
  playerB_variables : List RunRow
  payoffs_and_results : List PayoffRow
deriving DecidableEq, Repr

/-- Model of src/app.py lines 136-277 `process_game_info`: run the fixed number
`n = 1000` of trials and assemble the response. The trial count is the local
constant `n`, not a field of the input. -/
def process_game_info (sample : Sampler) (solve : Solver)
    (game_data : GameData) : ProcessedResults :=
  let n := 1000
  let final := runSimulation sample solve game_data n
  let successful_runs := final.payoffs_and_results.length
  let failed_count := final.failed_simulations.length
  { status := "processed"
    input_data := game_data
    simulation_runs := n
    successful_runs := successful_runs
    failed_runs := failed_count
    success_rate := if 0 < n then (successful_runs : ℚ) / (n : ℚ) * 100 else 0
    failed_simulations := if 0 < failed_count then some final.failed_simulations else none
    playerA_variables := final.playerA_variables
    playerB_variables := final.playerB_variables
    payoffs_and_results := final.payoffs_and_results }

/-- A variable definition used in the concrete test inputs. -/
def vDemo : VarDef :=
  { variableNumber := "v1", min := 0, max := 10, stdev := 1,
    weight := none, desiredEffect := "positive" }

/-- A concrete request payload: player A with one variable and the raw-value
formula, player B with no variables and a constant formula, the four fixed
scenario labels, and per-scenario means 1, 2, 3, 4. -/
def gDemo : GameData :=
  { playerA :=
      { «variables» := [vDemo]
        scenarios := ["NT_NT", "T_NT", "NT_T", "T_T"]
        scenarioValues := [[1], [2], [3], [4]]
        formula := "v1_Val" }
    playerB :=
      { «variables» := []
        scenarios := ["NT_NT", "T_NT", "NT_T", "T_T"]
        scenarioValues := []
        formula := "2.5" } }

/-- A sampler oracle that returns the mean except in trial 3, where it
returns an out-of-bounds draw (clamped to 10 downstream). -/
def sDemo : Sampler := fun run _i _suffix _j mean _stdev =>
  if run = 3 then 99 else mean

/-- A solver that rejects any outcome list containing a player-A payoff of
10 and otherwise reports a fixed equilibrium description. -/
def solDemo : Solver := fun outcomes =>
  if outcomes.any (fun p => decide (p.1 = 10)) then
    .error (.exception "solver rejected outcomes")
  else .ok "equilibrium"

/-- A solver that always raises. -/
def solDown : Solver := fun _ => .error (.exception "solver down")

/-- Variable definition with an explicit weight, for the concrete tests. -/
def vW : VarDef := { vDemo with weight := some (7 / 10) }

/-- Variable definition with an uppercase id and explicit weight. -/
def vUp : VarDef := { vDemo with variableNumber := "V1", weight := some (7 / 10) }

/-- Variable definition with degenerate bounds (min = max = 5). -/
def vDeg : VarDef := { vDemo with min := 5, max := 5 }

/-- The demo payload with an empty scenarioValues table for player A, so
that the very first sampling access raises IndexError. -/
def gDemoNoRows : GameData :=
  { gDemo with playerA := { gDemo.playerA with scenarioValues := [] } }

/-- The payoff row recorded for a trial, when the trial succeeds. -/
def payoffEntry? (sample : Sampler) (solve : Solver) (gd : GameData)
    (run : ℕ) : Option PayoffRow :=
  (trialResult sample solve gd run).toOption

/-- The failure record for a trial, when the trial raises. -/
def failEntry? (sample : Sampler) (solve : Solver) (gd : GameData)
    (run : ℕ) : Option FailureRow :=
  match trialResult sample solve gd run with
  | .error e => some (mkFailure run e)
  | .ok _ => none

theorem simStep_payoffs_eq (sample : Sampler) (solve : Solver) (gd : GameData)
    (st : SimState) (run : ℕ) :
    (simStep sample solve gd st run).payoffs_and_results =
      st.payoffs_and_results ++ (payoffEntry? sample solve gd run).toList := by
  unfold simStep payoffEntry? trialResult
  cases hr : runScenarios sample gd run with
  | error e => simp [Except.toOption]
  | ok x =>
    obtain ⟨ra, rb, sp⟩ := x
    cases hs : solvePhase solve sp run with
    | error e => simp [hs, Except.toOption]
    | ok pr => simp [hs, Except.toOption]

theorem simStep_failures_eq (sample : Sampler) (solve : Solver) (gd : GameData)
    (st : SimState) (run : ℕ) :
    (simStep sample solve gd st run).failed_simulations =
      st.failed_simulations ++ (failEntry? sample solve gd run).toList := by
  unfold simStep failEntry? trialResult
  cases hr : runScenarios sample gd run with
  | error e => simp [Except.toOption]
  | ok x =>
    obtain ⟨ra, rb, sp⟩ := x
    cases hs : solvePhase solve sp run with
    | error e => simp [hs, Except.toOption]
    | ok pr => simp [hs, Except.toOption]

theorem runSimulation_succ (sample : Sampler) (solve : Solver) (gd : GameData)
    (n : ℕ) :
    runSimulation sample solve gd (n + 1) =
      simStep sample solve gd (runSimulation sample solve gd n) n := by
  unfold runSimulation
  rw [List.range_succ, List.foldl_append]
  rfl

theorem runSimulation_payoffs (sample : Sampler) (solve : Solver) (gd : GameData) :
    ∀ n, (runSimulation sample solve gd n).payoffs_and_results =
      (List.range n).filterMap (payoffEntry? sample solve gd) := by
  intro n
  induction n with
  | zero => rfl
  | succ n ih =>
    rw [runSimulation_succ, simStep_payoffs_eq, ih, List.range_succ,
      List.filterMap_append]
    cases hp : payoffEntry? sample solve gd n <;> simp [List.filterMap_cons, hp]

theorem runSimulation_failures (sample : Sampler) (solve : Solver) (gd : GameData) :
    ∀ n, (runSimulation sample solve gd n).failed_simulations =
      (List.range n).filterMap (failEntry? sample solve gd) := by
  intro n
  induction n with
  | zero => rfl
  | succ n ih =>
    rw [runSimulation_succ, simStep_failures_eq, ih, List.range_succ,
      List.filterMap_append]
    cases hp : failEntry? sample solve gd n <;> simp [List.filterMap_cons, hp]

theorem entry_split (sample : Sampler) (solve : Solver) (gd : GameData) (run : ℕ) :
    (payoffEntry? sample solve gd run).isSome = true ∧
        failEntry? sample solve gd run = none ∨
      payoffEntry? sample solve gd run = none ∧
        (failEntry? sample solve gd run).isSome = true := by
  unfold payoffEntry? failEntry?
  cases trialResult sample solve gd run <;> simp [Except.toOption]

theorem length_filterMap_split {α β γ : Type} (f : α → Option β) (g : α → Option γ) :
    ∀ l : List α,
      (∀ a ∈ l, (f a).isSome = true ∧ g a = none ∨ f a = none ∧ (g a).isSome = true) →
      (l.filterMap f).length + (l.filterMap g).length = l.length := by
  intro l
  induction l with
  | nil => intro _; rfl
  | cons a t ih =>
    intro h
    have ht := ih (fun x hx => h x (List.mem_cons_of_mem a hx))
    rcases h a (List.mem_cons_self a t) with ⟨hf, hg⟩ | ⟨hf, hg⟩
    · obtain ⟨b, hb⟩ := Option.isSome_iff_exists.mp hf
      simp only [List.filterMap_cons, hb, hg, List.length_cons]
      omega
    · obtain ⟨c, hc⟩ := Option.isSome_iff_exists.mp hg
      simp only [List.filterMap_cons, hf, hc, List.length_cons]
      omega

theorem filterMap_eq_single {β : Type} (f : ℕ → Option β) (r : ℕ) (x : β) :
    ∀ l : List ℕ, l.count r = 1 → f r = some x →
      (∀ a ∈ l, a ≠ r → f a = none) → l.filterMap f = [x] := by
  intro l
  induction l with
  | nil => intro h; simp at h
  | cons a t ih =>
    intro hc hr hother
    by_cases ha : a = r
    · subst ha
      have hcnt : t.count a = 0 := by
        rw [List.count_cons_self] at hc; omega
      have hnot : a ∉ t := List.count_eq_zero.mp hcnt
      have htail : t.filterMap f = [] := by
        rw [List.filterMap_eq_nil_iff]
        intro y hy
        exact hother y (List.mem_cons_of_mem _ hy) (fun hyr => hnot (hyr ▸ hy))
      rw [List.filterMap_cons, hr, htail]
    · have hfa : f a = none := hother a (List.mem_cons_self a t) (fun h => ha h)
      have hbeq : (a == r) = false := beq_eq_false_iff_ne.mpr (fun h => ha h)
      have hc2 : t.count r = 1 := by
        rw [List.count_cons, hbeq] at hc
        simpa using hc
      rw [List.filterMap_cons, hfa]
      exact ih hc2 hr (fun y hy => hother y (List.mem_cons_of_mem _ hy))

theorem except_bind_ok {α β : Type} (x : α) (f : α → Except PyErr β) :
    (Except.ok x >>= f) = f x := rfl

theorem except_bind_err {α β : Type} (e : PyErr) (f : α → Except PyErr β) :
    ((Except.error e : Except PyErr α) >>= f) = .error e := rfl

theorem except_pure_eq_ok {α : Type} (x : α) :
    (pure x : Except PyErr α) = .ok x := rfl

theorem except_map_err {α β : Type} (e : PyErr) (f : α → β) :
    (f <$> (Except.error e : Except PyErr α)) = .error e := rfl

/-- C1 (counterexample): with a standardization token in the formula, a
sampled value carrying the player tag, and an empty variable-definition
list, `evaluate_formula` succeeds with the raw sampled value substituted
instead of failing with an UnknownVariable error. -/
theorem missing_vardef_no_unknown_variable_error :
    evaluate_formula "v1_stnd" [("v1_A", (7 : ℚ) / 2)] "A" [] = .ok ((7 : ℚ) / 2) := by
  with_unfolding_all decide

/-- C1 (amended): during standardization substitution, when the variable
definition cannot be found among the declared variables, the three
standardization-token variants are replaced by the raw sampled value (the
silent fallback of src/app.py lines 100-104); no error is raised. -/
theorem missing_vardef_silent_fallback
    (formula : String) (vars : List VarDef) (suffix ef key : String) (value : ℚ)
    (hend : key.endsWith ("_" ++ suffix) = true)
    (hstnd : hasStndToken formula (baseVar key suffix) = true)
    (hnone : vars.find? (fun v => v.variableNumber == baseVar key suffix) = none) :
    substOneSampled formula vars suffix ef (key, value) =
      .ok (substStnd ef (baseVar key suffix) value) := by
  unfold substOneSampled
  simp [hend, hstnd, hnone, except_pure_eq_ok]

/-- C1 (witness): the amended fallback behaviour at a concrete input. -/
theorem missing_vardef_silent_fallback_witness :
    substOneSampled "v1_stnd" [] "A" "v1_stnd" ("v1_A", (7 : ℚ) / 2) = .ok "3.5" := by
  have h := missing_vardef_silent_fallback "v1_stnd" [] "A" "v1_stnd" "v1_A" ((7 : ℚ) / 2)
    (by with_unfolding_all decide) (by with_unfolding_all decide) rfl
  exact h.trans (by with_unfolding_all decide)

/-- C4: if the substitution pipeline produces a string containing any
character outside the allow-list (digits, the four operators, parentheses,
decimal points, whitespace), `evaluate_formula` fails with the
invalid-characters error (the InvalidExpression failure), and the arithmetic
evaluator is never consulted. -/
theorem invalid_characters_rejected
    (formula : String) (sampled_values : List (String × ℚ)) (player_suffix : String)
    (variables_data : List VarDef) (ef : String)
    (hsub : substPipeline formula sampled_values player_suffix variables_data = .ok ef)
    (hbad : ef.all isAllowedChar = false) :
    evaluate_formula formula sampled_values player_suffix variables_data =
      .error (.exception ("Error evaluating formula \x27" ++ formula ++ "\x27: " ++
        ("Formula contains invalid characters: " ++ formula))) := by
  unfold evaluate_formula
  rw [hsub]
  simp [except_bind_ok, hbad, PyErr.msg]

/-- C4 (witness): a formula with an unresolved variable token and no sampled
values is rejected with the invalid-characters error. -/
theorem invalid_characters_rejected_witness :
    evaluate_formula "v9_Val" [] "A" [] =
      .error (.exception ("Error evaluating formula \x27" ++ "v9_Val" ++ "\x27: " ++
        ("Formula contains invalid characters: " ++ "v9_Val"))) := by
  exact invalid_characters_rejected "v9_Val" [] "A" [] "v9_Val" rfl
    (by with_unfolding_all decide)

/-- C5: for min < max the standardized value is (value - min)/(max - min)
for a positive (or unrecognized) desiredEffect and (max - value)/(max - min)
for a negative one, clamped to [0, 1]; hence min standardizes to 0 and max
to 1 under positive, and min to 1 and max to 0 under negative. -/
theorem standardization_formula_and_endpoints
    (v mn mx : ℚ) (eff : String) (h : mn < mx) :
    standardizedValue v mn mx eff =
      .ok (max 0 (min 1 (if eff.toLower == "negative" then (mx - v) / (mx - mn)
        else (v - mn) / (mx - mn)))) ∧
    standardizedValue mn mn mx "positive" = .ok 0 ∧
    standardizedValue mx mn mx "positive" = .ok 1 ∧
    standardizedValue mn mn mx "negative" = .ok 1 ∧
    standardizedValue mx mn mx "negative" = .ok 0 := by
  have hne : mx - mn ≠ 0 := sub_ne_zero.mpr (ne_of_gt h)
  have hdiv : ∀ a : ℚ, pydiv a (mx - mn) = .ok (a / (mx - mn)) := fun a => by
    unfold pydiv; rw [if_neg hne]
  have hgen : ∀ (w : ℚ) (eff2 : String), standardizedValue w mn mx eff2 =
      .ok (max 0 (min 1 (if eff2.toLower == "negative" then (mx - w) / (mx - mn)
        else (w - mn) / (mx - mn)))) := by
    intro w eff2
    unfold standardizedValue
    cases hneg : (eff2.toLower == "negative") with
    | true =>
      have he : eff2.toLower = "negative" := eq_of_beq hneg
      have hpos : (eff2.toLower == "positive") = false := by
        rw [he]; with_unfolding_all decide
      simp [hpos, hneg, hdiv, except_bind_ok]
    | false =>
      cases hpos : (eff2.toLower == "positive") with
      | true => simp [hpos, hneg, hdiv, except_bind_ok]
      | false => simp [hpos, hneg, hdiv, except_bind_ok]
  have hposneg : ("positive".toLower == "negative") = false := by
    with_unfolding_all decide
  have hnegneg : ("negative".toLower == "negative") = true := by
    with_unfolding_all decide
  refine ⟨hgen v eff, ?_, ?_, ?_, ?_⟩
  · rw [hgen mn "positive"]
    rw [hposneg]
    simp only [Bool.false_eq_true, if_false, sub_self, zero_div]
    rw [min_eq_right (by norm_num : (0 : ℚ) ≤ 1), max_self]
  · rw [hgen mx "positive"]
    rw [hposneg]
    simp only [Bool.false_eq_true, if_false]
    rw [div_self hne, min_self, max_eq_right (by norm_num : (0 : ℚ) ≤ 1)]
  · rw [hgen mn "negative"]
    rw [hnegneg]
    simp only [if_true]
    rw [div_self hne, min_self, max_eq_right (by norm_num : (0 : ℚ) ≤ 1)]
  · rw [hgen mx "negative"]
    rw [hnegneg]
    simp only [if_true, sub_self, zero_div]
    rw [min_eq_right (by norm_num : (0 : ℚ) ≤ 1), max_self]

/-- C5 (witness): the endpoint facts at bounds 0 and 10. -/
theorem standardization_formula_and_endpoints_witness :
    standardizedValue 0 0 10 "positive" = .ok 0 ∧
    standardizedValue 10 0 10 "negative" = .ok 0 := by
  have h := standardization_formula_and_endpoints 3 0 10 "positive" (by norm_num)
  exact ⟨h.2.1, h.2.2.2.2⟩

/-- C6 (counterexample): with degenerate bounds (min = max = 5) the code
raises the ZeroDivisionError of the standardization division, caught and
re-wrapped as a generic Exception whose message reports the division by
zero; this is the very same error shape an ordinary arithmetic division by
zero produces, so there is no distinct DegenerateBounds classification. -/
theorem degenerate_bounds_no_distinct_error :
    evaluate_formula "v1_stnd" [("v1_A", 2)] "A" [vDeg] =
      .error (.exception "Error evaluating formula \x27v1_stnd\x27: float division by zero") ∧
    evaluate_formula "1.0/(2.0-2.0)" [] "A" [] =
      .error (.exception
        "Error evaluating formula \x271.0/(2.0-2.0)\x27: float division by zero") := by
  constructor
  · with_unfolding_all decide
  · with_unfolding_all decide

/-- C6 (amended): standardization with max = min fails by raising
ZeroDivisionError from the division (subsequently caught and wrapped by the
evaluator, so the division error does not escape uncaught), rather than
through any dedicated DegenerateBounds check. -/
theorem degenerate_bounds_division_error (v mn : ℚ) (eff : String) :
    standardizedValue v mn mn eff = .error .zeroDivision := by
  unfold standardizedValue
  have hz : ∀ a : ℚ, pydiv a (0 : ℚ) = .error .zeroDivision := fun a => by
    unfold pydiv; rw [if_pos rfl]
  cases (eff.toLower == "negative") <;> cases (eff.toLower == "positive") <;>
    simp [hz, except_bind_err, except_map_err, sub_self]

/-- C7 (counterexample): a formula containing both a standardization token
and a raw-value token for the same variable leaves the `_Val` token
unresolved (the raw-value branch is skipped whenever a standardization token
is present), so evaluation fails instead of substituting both tokens. -/
theorem raw_value_token_not_replaced_with_stnd :
    evaluate_formula "v1_Stnd+v1_Val" [("v1_A", 3)] "A" [vDemo] =
      .error (.exception ("Error evaluating formula \x27v1_Stnd+v1_Val\x27: " ++
        "Formula contains invalid characters: v1_Stnd+v1_Val")) := by
  with_unfolding_all decide

/-- C7 (amended): for a sampled value carrying the player tag, the raw-value
substitution (the `_Val` token and then the bare base name) happens exactly
when the formula contains no standardization token for that variable. -/
theorem raw_value_subst_without_stnd_token
    (formula : String) (vars : List VarDef) (suffix ef key : String) (value : ℚ)
    (hend : key.endsWith ("_" ++ suffix) = true)
    (hstnd : hasStndToken formula (baseVar key suffix) = false) :
    substOneSampled formula vars suffix ef (key, value) =
      .ok ((ef.replace (baseVar key suffix ++ "_Val") (pyStr value)).replace
        (baseVar key suffix) (pyStr value)) := by
  unfold substOneSampled
  simp [hend, hstnd, except_pure_eq_ok]

/-- C7 (witness): the raw-value substitution at a concrete input. -/
theorem raw_value_subst_without_stnd_token_witness :
    substOneSampled "v1_Val+2" [] "A" "v1_Val+2" ("v1_A", 3) = .ok "3.0+2" := by
  have h := raw_value_subst_without_stnd_token "v1_Val+2" [] "A" "v1_Val+2" "v1_A" 3
    (by with_unfolding_all decide) (by with_unfolding_all decide)
  exact h.trans (by with_unfolding_all decide)

/-- C8: whenever the four scenario labels are present in the scenario
payoffs dict, the outcome list assembled for the solver is exactly
[NT_NT, T_NT, NT_T, T_T]. -/
theorem outcome_list_order
    (sp : List (String × (ℚ × ℚ))) (p1 p2 p3 p4 : ℚ × ℚ)
    (h1 : dictGet sp "NT_NT" = .ok p1) (h2 : dictGet sp "T_NT" = .ok p2)
    (h3 : dictGet sp "NT_T" = .ok p3) (h4 : dictGet sp "T_T" = .ok p4) :
    assembleOutcomes sp = .ok [p1, p2, p3, p4] := by
  unfold assembleOutcomes
  simp only [h1, h2, h3, h4, except_bind_ok, except_pure_eq_ok]

/-- C8 (witness): with payoffs keyed NT_NT (1,2), T_NT (3,4), NT_T (5,6),
T_T (7,8), the assembled list is [(1,2), (3,4), (5,6), (7,8)]. -/
theorem outcome_list_order_witness :
    assembleOutcomes
        [("NT_NT", ((1 : ℚ), (2 : ℚ))), ("T_NT", (3, 4)), ("NT_T", (5, 6)), ("T_T", (7, 8))] =
      .ok [((1 : ℚ), (2 : ℚ)), (3, 4), (5, 6), (7, 8)] := by
  exact outcome_list_order _ _ _ _ _ (by with_unfolding_all decide)
    (by with_unfolding_all decide) (by with_unfolding_all decide)
    (by with_unfolding_all decide)

/-- C9 (counterexample): the token `v1_Weight` (uppercase W in the suffix)
matches `<id>_weight` case-insensitively, yet the weight pass leaves it
untouched, because only the declared id and its lowercasing, each with a
lowercase `_weight` suffix, are replaced. -/
theorem weight_subst_not_case_insensitive :
    weightSubst [vW] "v1_Weight" = "v1_Weight" := by
  with_unfolding_all decide

/-- C9 (amended): weight substitution runs before the sampled-value
substitutions, and it replaces exactly the tokens built from the declared id
and from its lowercased form, each with the literal lowercase suffix
`_weight`, using the declared weight (0.5 when unset). -/
theorem weight_subst_exact_tokens :
    (∀ (formula : String) (sampled_values : List (String × ℚ)) (player_suffix : String)
        (variables_data : List VarDef),
        substPipeline formula sampled_values player_suffix variables_data =
          sampled_values.foldlM (substOneSampled formula variables_data player_suffix)
            (weightSubst variables_data formula)) ∧
    weightSubst [vDemo] "v1_weight*v1_Val" = "0.5*v1_Val" ∧
    weightSubst [vUp] "V1_weight+v1_weight" = "0.7+0.7" := by
  refine ⟨fun _ _ _ _ => rfl, ?_, ?_⟩
  · with_unfolding_all decide
  · with_unfolding_all decide

/-- C2 (counterexample): a trial whose scenario sweep succeeds but whose
solver call raises still appends the sampled-variable row to the player A
table (it was appended before the solver ran), while recording the failure;
so a solver-step failure does not leave the output tables unchanged. -/
theorem solver_failure_retains_variable_rows :
    (simStep sDemo solDown gDemo initSimState 0).playerA_variables =
      [⟨1, [("v1_A_NT_NT", 1), ("v1_A_T_NT", 2), ("v1_A_NT_T", 3), ("v1_A_T_T", 4)]⟩] ∧
    (simStep sDemo solDown gDemo initSimState 0).payoffs_and_results = [] ∧
    (simStep sDemo solDown gDemo initSimState 0).failed_simulations =
      [⟨1, "solver down", "Exception"⟩] := by
  refine ⟨?_, ?_, ?_⟩ <;> with_unfolding_all decide

/-- C2 (amended): a failed trial never contributes a payoff row, and a
failure during the scenario sweep (sampling or formula evaluation) leaves
every table unchanged, adding only the failure entry; a failure in the
solver phase happens after the variable rows were appended, so only the
payoff table is guaranteed unchanged there. -/
theorem failed_trial_state_retention
    (sample : Sampler) (solve : Solver) (gd : GameData) (st : SimState) (run : ℕ) :
    (∀ e, runScenarios sample gd run = .error e →
      simStep sample solve gd st run =
        { st with failed_simulations := st.failed_simulations ++ [mkFailure run e] }) ∧
    (∀ e, trialResult sample solve gd run = .error e →
      (simStep sample solve gd st run).payoffs_and_results = st.payoffs_and_results) := by
  constructor
  · intro e he
    unfold simStep
    rw [he]
  · intro e he
    rw [simStep_payoffs_eq]
    unfold payoffEntry?
    rw [he]
    simp [Except.toOption]

/-- C2 (witness): the amended behaviour at concrete inputs: an IndexError
during sampling leaves every table empty except the failure list, and a
solver failure adds no payoff row. -/
theorem failed_trial_state_retention_witness :
    simStep sDemo solDemo gDemoNoRows initSimState 0 =
      { initSimState with failed_simulations := [mkFailure 0 .indexError] } ∧
    (simStep sDemo solDown gDemo initSimState 0).payoffs_and_results = [] := by
  constructor
  · have h := (failed_trial_state_retention sDemo solDemo gDemoNoRows initSimState 0).1
      .indexError (by with_unfolding_all decide)
    exact h
  · exact (failed_trial_state_retention sDemo solDown gDemo initSimState 0).2
      (.exception "solver down") (by with_unfolding_all decide)

/-- C3: one raising trial never aborts the batch: if trial r raises with
error e and every other trial of the n-trial loop succeeds, the aggregate
contains n - 1 payoff rows and exactly the one failure entry, which carries
the raising trial (as its 1-based run number) and the error classification. -/
theorem orchestrator_partial_failure_isolation
    (sample : Sampler) (solve : Solver) (gd : GameData) (n r : ℕ) (e : PyErr)
    (hr : r < n)
    (hfail : trialResult sample solve gd r = .error e)
    (hok : ∀ run, run < n → run ≠ r → (trialResult sample solve gd run).isOk = true) :
    (runSimulation sample solve gd n).payoffs_and_results.length = n - 1 ∧
    (runSimulation sample solve gd n).failed_simulations = [mkFailure r e] := by
  have hfailList : (runSimulation sample solve gd n).failed_simulations = [mkFailure r e] := by
    rw [runSimulation_failures]
    apply filterMap_eq_single _ r (mkFailure r e)
    · exact List.count_eq_one_of_mem (List.nodup_range n) (List.mem_range.mpr hr)
    · unfold failEntry?
      rw [hfail]
    · intro a ha hne
      have hok2 := hok a (List.mem_range.mp ha) hne
      unfold failEntry?
      cases htr : trialResult sample solve gd a with
      | error e2 => rw [htr] at hok2; simp [Except.isOk, Except.toBool] at hok2
      | ok _ => rfl
  have hsum := length_filterMap_split (payoffEntry? sample solve gd)
    (failEntry? sample solve gd) (List.range n) (fun a _ => entry_split sample solve gd a)
  rw [List.length_range] at hsum
  have h1 : ((List.range n).filterMap (failEntry? sample solve gd)).length = 1 := by
    rw [← runSimulation_failures, hfailList]
    rfl
  constructor
  · rw [runSimulation_payoffs]
    omega
  · exact hfailList

/-- C3 (witness): ten trials with trial index 3 engineered to raise (the
sampler returns an out-of-bounds draw there, the solver rejects the
resulting outcome list) yield 9 payoff rows and exactly one failure entry
for run 4 (1-based) with the Exception classification. -/
theorem orchestrator_partial_failure_isolation_witness :
    (runSimulation sDemo solDemo gDemo 10).payoffs_and_results.length = 9 ∧
    (runSimulation sDemo solDemo gDemo 10).failed_simulations =
      [mkFailure 3 (.exception "solver rejected outcomes")] := by
  have h := orchestrator_partial_failure_isolation sDemo solDemo gDemo 10 3
    (.exception "solver rejected outcomes") (by norm_num)
    (by with_unfolding_all decide) (by with_unfolding_all decide)
  exact ⟨h.1, h.2⟩

/-- C10: the trial count is the fixed constant 1000, independent of the
request payload: the reported simulation_runs field is always 1000, and the
1000 executed trials each land in exactly one of the payoff table or the
failure list. -/
theorem simulation_runs_always_1000 (sample : Sampler) (solve : Solver) (gd : GameData) :
    (process_game_info sample solve gd).simulation_runs = 1000 ∧
    (process_game_info sample solve gd).successful_runs +
      (process_game_info sample solve gd).failed_runs = 1000 := by
  constructor
  · rfl
  · show (runSimulation sample solve gd 1000).payoffs_and_results.length +
      (runSimulation sample solve gd 1000).failed_simulations.length = 1000
    rw [runSimulation_payoffs, runSimulation_failures]
    have hsum := length_filterMap_split (payoffEntry? sample solve gd)
      (failEntry? sample solve gd) (List.range 1000) (fun a _ => entry_split sample solve gd a)
    rwa [List.length_range] at hsum
